import Mathlib

/-!
Verification of the audio-artifact subsystem of the retail-ai-location-strategy
pipeline (`app/tools/audio_generator.py`, together with the speech-mode /
instruction selection in `app/sub_agents/audio_overview/agent.py` and the
parallel artifact fan-out declared in `app/sub_agents/artifact_generation/agent.py`).

The Python source is shallowly embedded: byte buffers are `List Nat` (one entry
per byte), Python exceptions are values of an inductive type, and the effectful
tool function `generate_audio_overview` is a pure function of the outcome of its
two external interactions (the TTS synthesis call and the artifact-store save).
-/

/-! ## Little-endian byte encoding and the WAV container

`_wrap_pcm_in_wav` (audio_generator.py, lines 39-63) feeds the raw PCM bytes to
`wave.open(...)`/`writeframes`; the CPython `wave` module emits a fixed 44-byte
RIFF/WAVE header (RIFF tag, chunk size, WAVE tag, fmt chunk of 16 bytes, data
tag, data size) followed by the frames verbatim.  `le16`/`le32` are the
little-endian encodings `struct.pack` uses for the header fields. -/

/-- Little-endian 2-byte encoding of a 16-bit field. -/
def le16 (n : Nat) : List Nat := [n % 256, n / 256 % 256]

/-- Little-endian 4-byte encoding of a 32-bit field. -/
def le32 (n : Nat) : List Nat :=
  [n % 256, n / 256 % 256, n / 65536 % 256, n / 16777216 % 256]

/-- The 44-byte RIFF/WAVE header written by the CPython `wave` module for a
PCM stream of `dataLen` bytes: `RIFF`, chunk size `36 + dataLen`, `WAVE`,
`fmt ` chunk (length 16, format 1 = PCM, channel count, sample rate, byte
rate, block align, bits per sample), `data`, `dataLen`. -/
def wavHeader (dataLen sr channels width : Nat) : List Nat :=
  [82, 73, 70, 70] ++ le32 (36 + dataLen) ++
  [87, 65, 86, 69] ++ [102, 109, 116, 32] ++ le32 16 ++
  le16 1 ++ le16 channels ++ le32 sr ++ le32 (sr * channels * width) ++
  le16 (channels * width) ++ le16 (width * 8) ++
  [100, 97, 116, 97] ++ le32 dataLen

/-- The function `_wrap_pcm_in_wav(pcm_data, sample_rate, channels, sample_width)`
(audio_generator.py, lines 39-63): the WAV container is the 44-byte header
followed by the PCM payload verbatim.  (The `wave` module only accepts
`0 < framerate` and header fields below `2^32`; the callers below guard the
rate accordingly.) -/
def wrap_pcm_in_wav (pcm_data : List Nat) (sample_rate : Nat)
    (channels : Nat := 1) (sample_width : Nat := 2) : List Nat :=
  wavHeader pcm_data.length sample_rate channels sample_width ++ pcm_data

/-- The sample rate a WAV byte buffer declares: bytes 24-27, little endian. -/
def declaredSampleRate (wav : List Nat) : Nat :=
  wav.getD 24 0 + 256 * wav.getD 25 0 + 65536 * wav.getD 26 0 +
    16777216 * wav.getD 27 0

theorem wavHeader_length (dataLen sr channels width : Nat) :
    (wavHeader dataLen sr channels width).length = 44 := by
  simp [wavHeader, le16, le32]

theorem drop_length_append {α : Type} (l₁ l₂ : List α) :
    (l₁ ++ l₂).drop l₁.length = l₂ := by
  induction l₁ with
  | nil => simp
  | cons a l ih => simp [ih]

/-! ## Duration formatting

Lines 201-203 of audio_generator.py:
`duration_seconds = len(raw_audio_bytes) / (sample_rate * 2)` followed by
`f"{int(duration_seconds // 60)}:{int(duration_seconds % 60):02d}"`.
The Python computation is on floats; for a non-negative exact quotient the
formatted pair is `(floor(q) / 60, floor(q) % 60)` where `q` is the total
number of whole seconds, which is what the Nat model below computes. -/

/-- The `%02d` zero padding of the seconds field. -/
def pad2 (n : Nat) : String := if n < 10 then "0" ++ toString n else toString n

/-- The duration string built at audio_generator.py lines 201-203 from the raw
payload length and the sample rate (sample width 2, mono). -/
def durationFmt (payloadLen sampleRate : Nat) : String :=
  let total := payloadLen / (sampleRate * 2)
  toString (total / 60) ++ ":" ++ pad2 (total % 60)

/-! ## Python string splitting and `int()`

`_parse_sample_rate_from_mime` (audio_generator.py, lines 66-83) is

```
if "rate=" in mime_type:
    try:
        rate_str = mime_type.split("rate=")[1].split(";")[0]
        return int(rate_str)
    except (ValueError, IndexError):
        pass
return 24000
```

`pySplit c0 ct s` embeds CPython `str.split(sep)` for the non-empty separator
`c0 :: ct`, splitting at every non-overlapping occurrence left to right (the
recursion is made structural with a fuel argument equal to the string length).
`containsSeq` embeds the `"rate=" in mime_type` containment test.
`pyIntList` embeds `int()` on a base-10 string: surrounding ASCII whitespace
is stripped, an optional sign is accepted, and single underscores are allowed
between digits (non-ASCII digit forms accepted by CPython are out of scope of
this model).  All definitions operate on `List Char`. -/

def isDig (c : Char) : Bool := 48 ≤ c.toNat && c.toNat ≤ 57
def consHead (c : Char) : List (List Char) → List (List Char)
  | [] => [[c]]
  | p :: ps => (c :: p) :: ps
def pySplitAux (c0 : Char) (ct : List Char) : Nat → List Char → List (List Char)
  | _, [] => [[]]
  | 0, s => [s]
  | fuel + 1, c :: rest =>
    if (c == c0) && ct.isPrefixOf rest then
      [] :: pySplitAux c0 ct fuel (rest.drop ct.length)
    else consHead c (pySplitAux c0 ct fuel rest)
def pySplit (c0 : Char) (ct : List Char) (s : List Char) : List (List Char) :=
  pySplitAux c0 ct s.length s
def containsSeq (c0 : Char) (ct : List Char) : List Char → Bool
  | [] => false
  | c :: rest => ((c == c0) && ct.isPrefixOf rest) || containsSeq c0 ct rest
def noMatchThrough (c0 : Char) (ct : List Char) (rest : List Char) : List Char → Bool
  | [] => true
  | a :: x' => (!((a == c0) && ct.isPrefixOf (x' ++ rest))) && noMatchThrough c0 ct rest x'

theorem pySplitAux_nil (c0 : Char) (ct : List Char) (fuel : Nat) :
    pySplitAux c0 ct fuel [] = [[]] := by
  cases fuel <;> rfl

theorem pySplitAux_cons_pos {c c0 : Char} {ct rest : List Char}
    (h : ((c == c0) && ct.isPrefixOf rest) = true) (fuel : Nat) :
    pySplitAux c0 ct (fuel + 1) (c :: rest) =
      [] :: pySplitAux c0 ct fuel (rest.drop ct.length) := by
  simp [pySplitAux, h]

theorem pySplitAux_cons_neg {c c0 : Char} {ct rest : List Char}
    (h : ((c == c0) && ct.isPrefixOf rest) = false) (fuel : Nat) :
    pySplitAux c0 ct (fuel + 1) (c :: rest) =
      consHead c (pySplitAux c0 ct fuel rest) := by
  simp [pySplitAux, h]

theorem pySplitAux_ne_nil (c0 : Char) (ct : List Char) :
    ∀ fuel s, pySplitAux c0 ct fuel s ≠ [] := by
  intro fuel
  induction fuel with
  | zero => intro s; cases s <;> simp [pySplitAux]
  | succ f ih =>
    intro s
    cases s with
    | nil => simp [pySplitAux]
    | cons c rest =>
      cases h : (c == c0) && ct.isPrefixOf rest with
      | true => rw [pySplitAux_cons_pos h]; simp
      | false =>
        rw [pySplitAux_cons_neg h]
        cases hh : pySplitAux c0 ct f rest with
        | nil => exact absurd hh (ih rest)
        | cons p ps => simp [consHead]

theorem pySplitAux_congr (c0 : Char) (ct : List Char) :
    ∀ f1 f2 s, s.length ≤ f1 → s.length ≤ f2 →
      pySplitAux c0 ct f1 s = pySplitAux c0 ct f2 s := by
  intro f1
  induction f1 with
  | zero =>
    intro f2 s h1 _
    have : s = [] := List.eq_nil_of_length_eq_zero (Nat.le_zero.mp h1)
    subst this; simp [pySplitAux_nil]
  | succ f ih =>
    intro f2 s h1 h2
    cases s with
    | nil => simp [pySplitAux_nil]
    | cons c rest =>
      cases f2 with
      | zero => simp at h2
      | succ g =>
        have hr : rest.length ≤ f := by simp at h1; omega
        have hg : rest.length ≤ g := by simp at h2; omega
        cases h : (c == c0) && ct.isPrefixOf rest with
        | true =>
          rw [pySplitAux_cons_pos h, pySplitAux_cons_pos h]
          have hd : (rest.drop ct.length).length ≤ rest.length := by
            simp [List.length_drop]
          rw [ih g (rest.drop ct.length) (le_trans hd hr) (le_trans hd hg)]
        | false =>
          rw [pySplitAux_cons_neg h, pySplitAux_cons_neg h, ih g rest hr hg]

theorem pySplitAux_eq_pySplit (c0 : Char) (ct : List Char) (fuel : Nat) (s : List Char)
    (h : s.length ≤ fuel) : pySplitAux c0 ct fuel s = pySplit c0 ct s :=
  pySplitAux_congr c0 ct fuel s.length s h le_rfl

theorem pySplit_ne_nil (c0 : Char) (ct : List Char) (s : List Char) :
    pySplit c0 ct s ≠ [] := pySplitAux_ne_nil c0 ct s.length s

theorem pySplit_cons_pos {c c0 : Char} {ct s : List Char}
    (h : ((c == c0) && ct.isPrefixOf s) = true) :
    pySplit c0 ct (c :: s) = [] :: pySplit c0 ct (s.drop ct.length) := by
  show pySplitAux c0 ct (s.length + 1) (c :: s) = _
  rw [pySplitAux_cons_pos h,
    pySplitAux_eq_pySplit c0 ct s.length _ (by simp [List.length_drop])]

theorem pySplit_cons_neg {c c0 : Char} {ct s : List Char}
    (h : ((c == c0) && ct.isPrefixOf s) = false) :
    pySplit c0 ct (c :: s) = consHead c (pySplit c0 ct s) := by
  show pySplitAux c0 ct (s.length + 1) (c :: s) = _
  rw [pySplitAux_cons_neg h]
  rfl

def consApp (x : List Char) : List (List Char) → List (List Char)
  | [] => [x]
  | p :: ps => (x ++ p) :: ps

theorem consHead_consApp (a : Char) (x : List Char) (l : List (List Char)) :
    consHead a (consApp x l) = consApp (a :: x) l := by
  cases l <;> rfl

theorem consApp_nil_of_ne (l : List (List Char)) (h : l ≠ []) : consApp [] l = l := by
  cases l with
  | nil => exact absurd rfl h
  | cons p ps => simp [consApp]

theorem pySplit_of_not_contains (c0 : Char) (ct : List Char) :
    ∀ s, containsSeq c0 ct s = false → pySplit c0 ct s = [s] := by
  intro s
  induction s with
  | nil => intro _; simp [pySplit, pySplitAux_nil]
  | cons c rest ih =>
    intro hc
    simp only [containsSeq, Bool.or_eq_false_iff] at hc
    rw [pySplit_cons_neg hc.1, ih hc.2]
    rfl

theorem pySplit_append_of_noMatch (c0 : Char) (ct : List Char) :
    ∀ x rest, noMatchThrough c0 ct rest x = true →
      pySplit c0 ct (x ++ rest) = consApp x (pySplit c0 ct rest) := by
  intro x
  induction x with
  | nil =>
    intro rest _
    simp [consApp_nil_of_ne _ (pySplit_ne_nil c0 ct rest)]
  | cons a x' ih =>
    intro rest h
    simp only [noMatchThrough, Bool.and_eq_true, Bool.not_eq_true'] at h
    show pySplit c0 ct (a :: (x' ++ rest)) = _
    rw [pySplit_cons_neg h.1, ih rest h.2, consHead_consApp]

theorem isPrefixOf_append_self (l t : List Char) : l.isPrefixOf (l ++ t) = true := by
  induction l with
  | nil => simp [List.isPrefixOf]
  | cons a as ih => simp [List.isPrefixOf, ih]

theorem pySplit_sep_head (c0 : Char) (ct : List Char) (tail : List Char) :
    pySplit c0 ct ((c0 :: ct) ++ tail) = [] :: pySplit c0 ct tail := by
  show pySplit c0 ct (c0 :: (ct ++ tail)) = _
  rw [pySplit_cons_pos (by simp [isPrefixOf_append_self])]
  congr 1
  · congr 1
    exact List.drop_left ct tail

theorem pySplit_first_sep (c0 : Char) (ct : List Char) (p tail : List Char)
    (h : noMatchThrough c0 ct ((c0 :: ct) ++ tail) p = true) :
    pySplit c0 ct (p ++ (c0 :: ct) ++ tail) = p :: pySplit c0 ct tail := by
  rw [List.append_assoc, pySplit_append_of_noMatch c0 ct p _ h, pySplit_sep_head]
  simp [consApp]

theorem contains_append_sep (c0 : Char) (ct : List Char) :
    ∀ p tail, containsSeq c0 ct (p ++ (c0 :: ct) ++ tail) = true := by
  intro p
  induction p with
  | nil => intro tail; simp [containsSeq, isPrefixOf_append_self]
  | cons a p' ih =>
    intro tail
    simp only [List.cons_append, containsSeq, Bool.or_eq_true]
    exact Or.inr (by simpa [List.append_assoc] using ih tail)

/- specialization to sep = "rate=" -/
def ateCT : List Char := ['a', 't', 'e', '=']

theorem ate_prefix_shift :
    ∀ (x t : List Char), ateCT.isPrefixOf (x ++ 'r' :: ateCT ++ t) = true →
      ateCT.isPrefixOf x = true := by
  intro x t h
  match x with
  | [] =>
    rw [show ateCT.isPrefixOf ([] ++ 'r' :: ateCT ++ t) = false from rfl] at h
    exact absurd h (by simp)
  | [x0] => simp [ateCT, List.isPrefixOf] at h
  | [x0, x1] => simp [ateCT, List.isPrefixOf] at h
  | [x0, x1, x2] => simp [ateCT, List.isPrefixOf] at h
  | x0 :: x1 :: x2 :: x3 :: xr =>
    simp [ateCT, List.isPrefixOf] at h ⊢
    exact ⟨h.1, h.2.1, h.2.2.1, h.2.2.2⟩

theorem noMatch_rate_of_not_contains :
    ∀ (p t : List Char), containsSeq 'r' ateCT p = false →
      noMatchThrough 'r' ateCT ('r' :: ateCT ++ t) p = true := by
  intro p t hc
  induction p with
  | nil => rfl
  | cons a p' ih =>
    simp only [containsSeq, Bool.or_eq_false_iff] at hc
    simp only [noMatchThrough, Bool.and_eq_true, Bool.not_eq_true']
    refine ⟨?_, ih hc.2⟩
    cases ha : (a == 'r') with
    | false => simp
    | true =>
      simp only [Bool.true_and]
      cases hp : ateCT.isPrefixOf (p' ++ 'r' :: ateCT ++ t) with
      | false => simpa using hp
      | true =>
        have := ate_prefix_shift p' t hp
        rw [ha, this] at hc
        simp at hc

theorem noMatch_of_no_start (c0 : Char) (ct : List Char) :
    ∀ (x rest : List Char), (∀ c ∈ x, (c == c0) = false) →
      noMatchThrough c0 ct rest x = true := by
  intro x rest h
  induction x with
  | nil => rfl
  | cons a x' ih =>
    simp only [noMatchThrough, Bool.and_eq_true, Bool.not_eq_true']
    refine ⟨?_, ih (fun c hc => h c (List.mem_cons_of_mem a hc))⟩
    rw [h a (List.mem_cons_self a x')]
    rfl

theorem contains_false_of_no_start (c0 : Char) (ct : List Char) :
    ∀ s, (∀ c ∈ s, (c == c0) = false) → containsSeq c0 ct s = false := by
  intro s h
  induction s with
  | nil => rfl
  | cons a s' ih =>
    simp only [containsSeq, Bool.or_eq_false_iff]
    constructor
    · rw [h a (List.mem_cons_self a s')]; rfl
    · exact ih (fun c hc => h c (List.mem_cons_of_mem a hc))

theorem dig_ne_char {c : Char} (h : isDig c = true) (d : Char) (hd : 58 ≤ d.toNat ∨ d.toNat ≤ 47) :
    (c == d) = false := by
  simp only [isDig, Bool.and_eq_true, decide_eq_true_eq] at h
  cases hb : (c == d) with
  | false => rfl
  | true =>
    have : c = d := by simpa using hb
    subst this
    omega

/- Python int() on a base-10 string -/
def isPySpace (c : Char) : Bool :=
  decide (c.toNat = 32 ∨ c.toNat = 9 ∨ c.toNat = 10 ∨ c.toNat = 13 ∨
    c.toNat = 11 ∨ c.toNat = 12)

def pyStrip (l : List Char) : List Char :=
  ((l.dropWhile isPySpace).reverse.dropWhile isPySpace).reverse

def pyDigitsAux : Nat → List Char → Option Nat
  | acc, [] => some acc
  | acc, c :: rest =>
    if c = '_' then
      match rest with
      | [] => none
      | c2 :: rest2 =>
        if isDig c2 then pyDigitsAux (acc * 10 + (c2.toNat - 48)) rest2 else none
    else if isDig c then pyDigitsAux (acc * 10 + (c.toNat - 48)) rest
    else none

def pyDigits : List Char → Option Nat
  | [] => none
  | c :: rest => if isDig c then pyDigitsAux (c.toNat - 48) rest else none

def pyIntList (l : List Char) : Option Int :=
  match pyStrip l with
  | [] => none
  | c :: rest =>
    if c = '-' then (pyDigits rest).map (fun n => -(n : Int))
    else if c = '+' then (pyDigits rest).map (fun n => (n : Int))
    else (pyDigits (c :: rest)).map (fun n => (n : Int))

def digitsToNat (d : List Char) : Nat :=
  d.foldl (fun a c => a * 10 + (c.toNat - 48)) 0

/- the parser itself: audio_generator.py lines 66-83.
   `rateOfPart p1` is the `int(p1.split(";")[0])`-with-fallback step applied to
   `mime.split("rate=")[1]`; `rateFromParts` selects element 1 of the split
   (the IndexError branch of the `except` maps to the catch-all 24000). -/
def rateOfPart (p1 : List Char) : Int :=
  match pyIntList ((pySplit ';' [] p1).headD []) with
  | some n => n
  | none => 24000

def rateFromParts : List (List Char) → Int
  | _ :: p1 :: _ => rateOfPart p1
  | _ => 24000

def parseRateCore (mime : List Char) : Int :=
  if containsSeq 'r' ateCT mime then rateFromParts (pySplit 'r' ateCT mime)
  else 24000

def parse_sample_rate_from_mime (mime_type : String) : Int :=
  parseRateCore mime_type.data

theorem rateFromParts_cons2 (a b : List Char) (l : List (List Char)) :
    rateFromParts (a :: b :: l) = rateOfPart b := rfl

/- all-digit strings -/
theorem digit_not_pyspace {c : Char} (h : isDig c = true) : isPySpace c = false := by
  simp only [isDig, Bool.and_eq_true, decide_eq_true_eq] at h
  simp only [isPySpace, decide_eq_false_iff_not]
  omega

theorem dropWhile_digits (l : List Char) (h : ∀ c ∈ l, isDig c = true) :
    l.dropWhile isPySpace = l := by
  cases l with
  | nil => rfl
  | cons c rest =>
    rw [List.dropWhile_cons]
    rw [digit_not_pyspace (h c (List.mem_cons_self c rest))]
    simp

theorem pyStrip_digits (l : List Char) (h : ∀ c ∈ l, isDig c = true) :
    pyStrip l = l := by
  unfold pyStrip
  rw [dropWhile_digits l h,
    dropWhile_digits l.reverse (by intro c hc; exact h c (List.mem_reverse.mp hc)),
    List.reverse_reverse]

theorem pyDigitsAux_digits :
    ∀ (d : List Char) (acc : Nat), (∀ c ∈ d, isDig c = true) →
      pyDigitsAux acc d = some (d.foldl (fun a c => a * 10 + (c.toNat - 48)) acc) := by
  intro d
  induction d with
  | nil => intro acc _; rfl
  | cons c rest ih =>
    intro acc h
    have hc : isDig c = true := h c (List.mem_cons_self c rest)
    have hne : ¬(c = '_') := by
      intro he
      subst he
      simp [isDig] at hc
    rw [List.foldl_cons]
    unfold pyDigitsAux
    rw [if_neg hne, if_pos hc]
    exact ih _ (fun x hx => h x (List.mem_cons_of_mem c hx))

theorem pyIntList_digits (d : List Char) (hne : d ≠ [])
    (h : ∀ c ∈ d, isDig c = true) :
    pyIntList d = some (digitsToNat d : Int) := by
  cases d with
  | nil => exact absurd rfl hne
  | cons c rest =>
    have hc : isDig c = true := h c (List.mem_cons_self c rest)
    have h45 : ¬(c = '-') := by intro he; subst he; simp [isDig] at hc
    have h43 : ¬(c = '+') := by intro he; subst he; simp [isDig] at hc
    unfold pyIntList
    rw [pyStrip_digits _ h]
    simp only [if_neg h45, if_neg h43]
    rw [show pyDigits (c :: rest)
        = if isDig c then pyDigitsAux (c.toNat - 48) rest else none from rfl]
    rw [if_pos hc, pyDigitsAux_digits rest _ (fun x hx => h x (List.mem_cons_of_mem c hx))]
    simp [digitsToNat]

theorem dig_not_r {c : Char} (h : isDig c = true) : (c == 'r') = false :=
  dig_ne_char h 'r' (by left; decide)

theorem dig_not_semi {c : Char} (h : isDig c = true) : (c == ';') = false :=
  dig_ne_char h ';' (by left; decide)

theorem isPrefixOf_nil_left (h0 : List Char) : List.isPrefixOf [] h0 = true := by
  cases h0 <;> rfl

theorem pySplit_semi_value (v h0 : List Char) (hv : ∀ c ∈ v, (c == ';') = false) :
    (pySplit ';' [] (v ++ ';' :: h0)).headD [] = v := by
  have hnm : noMatchThrough ';' [] (';' :: h0) v = true :=
    noMatch_of_no_start ';' [] v _ hv
  rw [pySplit_append_of_noMatch ';' [] v _ hnm]
  have hpos : ((';' == ';') && List.isPrefixOf [] h0) = true := by
    rw [isPrefixOf_nil_left]; rfl
  rw [pySplit_cons_pos hpos]
  simp [consApp]

theorem pySplit_rate_value (v s : List Char) (hv : ∀ c ∈ v, (c == 'r') = false) :
    ∃ t0, pySplit 'r' ateCT (v ++ ';' :: s)
      = (v ++ ';' :: (pySplit 'r' ateCT s).headD []) :: t0 := by
  have hnm : noMatchThrough 'r' ateCT (';' :: s) v = true :=
    noMatch_of_no_start 'r' ateCT v _ hv
  rw [pySplit_append_of_noMatch 'r' ateCT v _ hnm]
  have hneg : ((';' == 'r') && ateCT.isPrefixOf s) = false := rfl
  rw [pySplit_cons_neg hneg]
  cases hsp : pySplit 'r' ateCT s with
  | nil => exact absurd hsp (pySplit_ne_nil 'r' ateCT s)
  | cons h0 t0 => exact ⟨t0, by simp [consHead, consApp]⟩

theorem parseRateCore_value_semi (p v s : List Char)
    (hp : containsSeq 'r' ateCT p = false)
    (hv : ∀ c ∈ v, (c == 'r') = false ∧ (c == ';') = false) :
    parseRateCore (p ++ ('r' :: ateCT) ++ (v ++ ';' :: s)) =
      (match pyIntList v with
       | some n => n
       | none => 24000) := by
  unfold parseRateCore
  rw [if_pos (contains_append_sep 'r' ateCT p (v ++ ';' :: s))]
  rw [pySplit_first_sep 'r' ateCT p _
    (by simpa using noMatch_rate_of_not_contains p (v ++ ';' :: s) hp)]
  obtain ⟨t0, ht⟩ := pySplit_rate_value v s (fun c hc => (hv c hc).1)
  rw [ht, rateFromParts_cons2]
  unfold rateOfPart
  rw [pySplit_semi_value v _ (fun c hc => (hv c hc).2)]

theorem parseRateCore_digits_semi (p d s : List Char)
    (hp : containsSeq 'r' ateCT p = false)
    (hd : d ≠ []) (hdig : ∀ c ∈ d, isDig c = true) :
    parseRateCore (p ++ ('r' :: ateCT) ++ (d ++ ';' :: s)) = (digitsToNat d : Int) := by
  rw [parseRateCore_value_semi p d s hp
    (fun c hc => ⟨dig_not_r (hdig c hc), dig_not_semi (hdig c hc)⟩)]
  rw [pyIntList_digits d hd hdig]

theorem parseRateCore_digits_end (p d : List Char)
    (hp : containsSeq 'r' ateCT p = false)
    (hd : d ≠ []) (hdig : ∀ c ∈ d, isDig c = true) :
    parseRateCore (p ++ ('r' :: ateCT) ++ d) = (digitsToNat d : Int) := by
  unfold parseRateCore
  rw [if_pos (contains_append_sep 'r' ateCT p d)]
  rw [pySplit_first_sep 'r' ateCT p _
    (by simpa using noMatch_rate_of_not_contains p d hp)]
  rw [pySplit_of_not_contains 'r' ateCT d
    (contains_false_of_no_start 'r' ateCT d (fun c hc => dig_not_r (hdig c hc)))]
  rw [rateFromParts_cons2]
  unfold rateOfPart
  rw [pySplit_of_not_contains ';' [] d
    (contains_false_of_no_start ';' [] d (fun c hc => dig_not_semi (hdig c hc)))]
  simp only [List.headD]
  rw [pyIntList_digits d hd hdig]

theorem parseRateCore_no_rate (m : List Char)
    (h : containsSeq 'r' ateCT m = false) : parseRateCore m = 24000 := by
  simp [parseRateCore, h]

theorem parseRateCore_malformed (p v s : List Char)
    (hp : containsSeq 'r' ateCT p = false)
    (hv : ∀ c ∈ v, (c == 'r') = false ∧ (c == ';') = false)
    (hint : pyIntList v = none) :
    parseRateCore (p ++ ('r' :: ateCT) ++ (v ++ ';' :: s)) = 24000 := by
  rw [parseRateCore_value_semi p v s hp hv, hint]

/-! ## Exceptions and the retry executor

`generate_with_retry` (audio_generator.py, lines 162-179) is the synthesis
call wrapped in the tenacity decorator
`retry(stop=stop_after_attempt(3), wait=wait_exponential(multiplier=2, min=2, max=30),
retry=retry_if_exception_type(ServerError))`.

Exceptions are embedded as values of `PyExc`: `serverError` stands for
`google.genai.errors.ServerError` (the transient class), `valueError` for any
other exception, and `retryError` for the `tenacity.RetryError` that wraps the
final attempt when the stop condition halts retrying (the decorator leaves
`reraise` at its default `False`, so exhaustion raises `RetryError`, not the
underlying `ServerError`).

The wrapped call is embedded as a function from the 1-based attempt number to
that attempt's outcome.  `retryAux` returns the final outcome, the number of
attempts performed, and the list of back-off sleeps taken between attempts;
`waitExponential` is tenacity's `wait_exponential.__call__`, namely
`max(max(0, min), min(multiplier * exp_base ** (attempt_number - 1), max))`. -/

inductive PyExc where
  | serverError (msg : String)
  | valueError (msg : String)
  | retryError (last : PyExc)
deriving DecidableEq, Repr

/-- The retry predicate `retry_if_exception_type(ServerError)`. -/
def isServerError : PyExc → Bool
  | .serverError _ => true
  | _ => false

/-- Embedding of `str(e)` as used in the error messages; exception values carry their
rendered message, and the `RetryError` rendering (which in CPython embeds the
future's address) is modelled as a fixed token. -/
def pyStr : PyExc → String
  | .serverError m => m
  | .valueError m => m
  | .retryError _ => "RetryError[<Future>]"

/-- tenacity `wait_exponential(multiplier, max, exp_base, min)` evaluated at
attempt number `k`. -/
def waitExponential (multiplier expBase mn mx k : Nat) : Nat :=
  max (max 0 mn) (min (multiplier * expBase ^ (k - 1)) mx)

/-- One tenacity retry loop: attempt `k` with `more` further attempts allowed
after it.  A retryable failure with attempts remaining sleeps `wait k` and
retries; a retryable failure with none remaining raises `RetryError(last)`;
a non-retryable failure propagates as-is.  Returns (outcome, attempts made,
sleeps taken). -/
def retryAux {A : Type} (retryOn : PyExc → Bool) (wait : Nat → Nat)
    (call : Nat → Except PyExc A) (k : Nat) :
    Nat → Except PyExc A × Nat × List Nat
  | 0 =>
    (match call k with
     | .ok a => (.ok a, k, [])
     | .error e =>
       if retryOn e then (.error (.retryError e), k, []) else (.error e, k, []))
  | more + 1 =>
    (match call k with
     | .ok a => (.ok a, k, [])
     | .error e =>
       if retryOn e then
         let r := retryAux retryOn wait call (k + 1) more
         (r.1, r.2.1, wait k :: r.2.2)
       else (.error e, k, []))

/-- The decorated `generate_with_retry` (audio_generator.py, lines 162-179): at most 3
attempts, exponential back-off with multiplier 2, bounds [2, 30], retrying
only on `ServerError`. -/
def generate_with_retry {A : Type} (call : Nat → Except PyExc A) :
    Except PyExc A × Nat × List Nat :=
  retryAux isServerError (waitExponential 2 2 2 30) call 1 2

theorem waitExponential_formula (k : Nat) :
    waitExponential 2 2 2 30 k = min (2 * 2 ^ (k - 1)) 30 := by
  have h1 : 0 < 2 ^ (k - 1) := pow_pos (by norm_num) _
  unfold waitExponential
  omega

theorem retry_two_failures_then_ok {A : Type} (call : Nat → Except PyExc A)
    (e1 e2 : PyExc) (a : A)
    (h1 : call 1 = .error e1) (hs1 : isServerError e1 = true)
    (h2 : call 2 = .error e2) (hs2 : isServerError e2 = true)
    (h3 : call 3 = .ok a) :
    generate_with_retry call = (.ok a, 3, [2, 4]) := by
  have s1 : retryAux isServerError (waitExponential 2 2 2 30) call 3 0
      = (.ok a, 3, ([] : List Nat)) := by
    unfold retryAux
    rw [h3]
  have s2 : retryAux isServerError (waitExponential 2 2 2 30) call 2 1
      = (.ok a, 3, [waitExponential 2 2 2 30 2]) := by
    unfold retryAux
    rw [h2]
    simp [hs2, s1]
  unfold generate_with_retry
  unfold retryAux
  rw [h1]
  simp [hs1, s2]
  constructor
  · show waitExponential 2 2 2 30 1 = 2
    rfl
  · show waitExponential 2 2 2 30 2 = 4
    rfl

theorem retry_non_transient {A : Type} (call : Nat → Except PyExc A) (e : PyExc)
    (h1 : call 1 = .error e) (hs : isServerError e = false) :
    generate_with_retry call = (.error e, 1, []) := by
  unfold generate_with_retry retryAux
  rw [h1]
  simp [hs]

theorem retry_exhausted {A : Type} (call : Nat → Except PyExc A)
    (e1 e2 e3 : PyExc)
    (h1 : call 1 = .error e1) (hs1 : isServerError e1 = true)
    (h2 : call 2 = .error e2) (hs2 : isServerError e2 = true)
    (h3 : call 3 = .error e3) (hs3 : isServerError e3 = true) :
    generate_with_retry call = (.error (.retryError e3), 3, [2, 4]) := by
  have s1 : retryAux isServerError (waitExponential 2 2 2 30) call 3 0
      = (.error (.retryError e3), 3, ([] : List Nat)) := by
    unfold retryAux
    rw [h3]
    simp [hs3]
  have s2 : retryAux isServerError (waitExponential 2 2 2 30) call 2 1
      = (.error (.retryError e3), 3, [waitExponential 2 2 2 30 2]) := by
    unfold retryAux
    rw [h2]
    simp [hs2, s1]
  unfold generate_with_retry retryAux
  rw [h1]
  simp [hs1, s2]
  constructor
  · show waitExponential 2 2 2 30 1 = 2
    rfl
  · show waitExponential 2 2 2 30 2 = 4
    rfl

/-! ## The audio stage

`generate_audio_overview` (audio_generator.py, lines 86-260) is embedded as a
pure function of the outcomes of its two external interactions:

* `synth` - the outcome of `generate_with_retry()` at line 183: either a
  response value or the exception propagating out of the retry executor
  (everything in the body runs inside the `try` opened at line 114, whose
  `except Exception` at lines 255-260 produces the structured error result);
* `save` - what `tool_context.save_artifact` at lines 212-215 does when
  called: return a version number or raise (lines 236-247 catch the raise).

The returned dictionary is embedded as `StageResult` (absent keys are `none`),
and the two `tool_context.state` writes at lines 223-224 as the `stateWrites`
list.  `base64Chunks` is standard base64 with padding (`base64.b64encode`).
The guard `0 < sample_rate < 2^32` reflects the `wave`/`struct` range checks:
outside it `wave.Error`/`struct.error` is raised by `_wrap_pcm_in_wav` and
caught by the outer handler (`waveErrMsg` carries the CPython message).
`reachesEncode` is true exactly when execution reaches the successful
encode (line 197), i.e. when a save is attempted. -/

def b64Alphabet : List Char :=
  ['A', 'B', 'C', 'D', 'E', 'F', 'G', 'H', 'I', 'J', 'K', 'L', 'M',
   'N', 'O', 'P', 'Q', 'R', 'S', 'T', 'U', 'V', 'W', 'X', 'Y', 'Z',
   'a', 'b', 'c', 'd', 'e', 'f', 'g', 'h', 'i', 'j', 'k', 'l', 'm',
   'n', 'o', 'p', 'q', 'r', 's', 't', 'u', 'v', 'w', 'x', 'y', 'z',
   '0', '1', '2', '3', '4', '5', '6', '7', '8', '9', '+', '/']

def b64Char (n : Nat) : Char := b64Alphabet.getD n 'A'

def base64Chunks : List Nat → List Char
  | [] => []
  | [b0] => [b64Char (b0 / 4), b64Char (b0 % 4 * 16), '=', '=']
  | [b0, b1] =>
    [b64Char (b0 / 4), b64Char (b0 % 4 * 16 + b1 / 16), b64Char (b1 % 16 * 4), '=']
  | b0 :: b1 :: b2 :: rest =>
    b64Char (b0 / 4) :: b64Char (b0 % 4 * 16 + b1 / 16) ::
      b64Char (b1 % 16 * 4 + b2 / 64) :: b64Char (b2 % 64) :: base64Chunks rest

def base64Str (bs : List Nat) : String := String.mk (base64Chunks bs)

structure InlineData where
  data : List Nat
  mime_type : Option String
deriving DecidableEq, Repr

structure RespPart where
  inline_data : Option InlineData
deriving DecidableEq, Repr

structure Candidate where
  parts : List RespPart
deriving DecidableEq, Repr

structure GenResponse where
  candidates : List Candidate
deriving DecidableEq, Repr

inductive SaveOutcome where
  | ok (version : Nat)
  | fail (msg : String)
deriving DecidableEq, Repr

structure StageResult where
  status : String
  message : Option String := none
  artifact_saved : Option Bool := none
  artifact_filename : Option String := none
  artifact_version : Option Nat := none
  mime_type : Option String := none
  duration_estimate : Option String := none
  size_bytes : Option Nat := none
  audio_data : Option String := none
  save_error : Option String := none
  error_message : Option String := none
deriving DecidableEq, Repr

structure AudioStageOutput where
  result : StageResult
  stateWrites : List (String × String)
deriving DecidableEq, Repr

def findInlineData : List RespPart → Option InlineData
  | [] => none
  | p :: rest =>
    match p.inline_data with
    | some d => some d
    | none => findInlineData rest

def effectiveMime (d : InlineData) : String :=
  match d.mime_type with
  | some s => if s = "" then "audio/L16" else s
  | none => "audio/L16"

def waveErrMsg (rate : Int) : String :=
  if rate ≤ 0 then "bad frame rate" else "argument out of range"

def noAudioOutput : AudioStageOutput :=
  { result :=
      { status := "error",
        error_message := some "No audio was generated in the response. The model may have encountered an issue." },
    stateWrites := [] }

def exceptionOutput (e : PyExc) : AudioStageOutput :=
  { result :=
      { status := "error",
        error_message := some ("Failed to generate audio overview: " ++ pyStr e) },
    stateWrites := [] }

def savedOutput (version : Nat) (audio_bytes : List Nat) (duration_str : String) :
    AudioStageOutput :=
  { result :=
      { status := "success",
        message := some "Audio overview generated and saved as artifact \x27audio_overview.wav\x27",
        artifact_saved := some true,
        artifact_filename := some "audio_overview.wav",
        artifact_version := some version,
        mime_type := some "audio/wav",
        duration_estimate := some duration_str,
        size_bytes := some audio_bytes.length },
    stateWrites :=
      [("audio_overview_base64", "data:audio/wav;base64," ++ base64Str audio_bytes),
       ("audio_overview_duration", duration_str)] }

def fallbackOutput (audio_bytes : List Nat) (duration_str msg : String) :
    AudioStageOutput :=
  { result :=
      { status := "success",
        message := some "Audio overview generated but artifact save failed",
        artifact_saved := some false,
        mime_type := some "audio/wav",
        duration_estimate := some duration_str,
        audio_data := some (base64Str audio_bytes),
        save_error := some msg },
    stateWrites := [] }

def generate_audio_overview (synth : Except PyExc GenResponse)
    (save : SaveOutcome) : AudioStageOutput :=
  match synth with
  | .error e => exceptionOutput e
  | .ok resp =>
    match resp.candidates with
    | [] => noAudioOutput
    | cand :: _ =>
      match findInlineData cand.parts with
      | none => noAudioOutput
      | some d =>
        let sample_rate : Int := parse_sample_rate_from_mime (effectiveMime d)
        if 0 < sample_rate ∧ sample_rate < 4294967296 then
          let audio_bytes := wrap_pcm_in_wav d.data sample_rate.toNat 1 2
          let duration_str := durationFmt d.data.length sample_rate.toNat
          match save with
          | .ok version => savedOutput version audio_bytes duration_str
          | .fail msg => fallbackOutput audio_bytes duration_str msg
        else exceptionOutput (.valueError (waveErrMsg sample_rate))

def reachesEncode (synth : Except PyExc GenResponse) : Bool :=
  match synth with
  | .error _ => false
  | .ok resp =>
    match resp.candidates with
    | [] => false
    | cand :: _ =>
      match findInlineData cand.parts with
      | none => false
      | some d =>
        decide (0 < parse_sample_rate_from_mime (effectiveMime d) ∧
          parse_sample_rate_from_mime (effectiveMime d) < 4294967296)

/-! ## Speech-mode and instruction selection

audio_generator.py lines 121-159 build the `SpeechConfig` from the
process-wide `USE_VERTEX_AI` flag, and audio_overview/agent.py lines 231-235
select the instruction template from the same flag.  Both are embedded as
functions of the flag value. -/

inductive SpeechConfigV where
  | singleNarrator (voice : String)
  | dualSpeaker (speakers : List (String × String))
deriving DecidableEq, Repr

inductive InstructionTemplate where
  | plainNarrative
  | dialogueFormatted
deriving DecidableEq, Repr

/-- audio_generator.py lines 121-159: Vertex AI mode builds the single
`PrebuiltVoiceConfig(voice_name="Kore")`; AI Studio mode builds the
`MultiSpeakerVoiceConfig` mapping Host A to Kore and Host B to Puck. -/
def buildSpeechConfig (useVertexAI : Bool) : SpeechConfigV :=
  if useVertexAI then .singleNarrator "Kore"
  else .dualSpeaker [("Host A", "Kore"), ("Host B", "Puck")]

/-- audio_overview/agent.py lines 231-235: the single-speaker (plain
narrative) instruction in Vertex AI mode, the multi-speaker (dialogue
formatted) instruction otherwise. -/
def selectInstruction (useVertexAI : Bool) : InstructionTemplate :=
  if useVertexAI then .plainNarrative else .dialogueFormatted

/-- The coupling invariant: a single-narrator voice configuration goes with
the plain-narrative script template, a dual-speaker configuration with the
dialogue template. -/
def configMatchesTemplate : SpeechConfigV → InstructionTemplate → Bool
  | .singleNarrator _, .plainNarrative => true
  | .dualSpeaker _, .dialogueFormatted => true
  | _, _ => false

/-! ## The parallel artifact fan-out (modelled from the spec)

Modelled from the spec: the three-member fan-out of
artifact_generation/agent.py lines 33-48 is executed by
`google.adk.agents.ParallelAgent`, whose run loop is not part of this
repository; only the declaration of the three sub-agents is.  Following
sections 4.3 and 5 of the specification (cooperative single-process
concurrency, join when all members reach a terminal state, no cancellation
of siblings), a member is a task that needs `steps` scheduling ticks to
reach its terminal outcome; each tick every unfinished member advances
independently of the others' outcomes, and the join returns once every
member is terminal, collecting each member's own outcome. -/

inductive MOutcome where
  | success (outputKey : String)
  | failure (err : String)
deriving DecidableEq, Repr

def isFailureB : MOutcome → Bool
  | .failure _ => true
  | _ => false

structure MemberTask where
  steps : Nat
  outcome : MOutcome
deriving DecidableEq, Repr

/-- One scheduling tick: every unfinished member advances one step;
a member's progress never depends on the other members. -/
def advanceAll (ms : List MemberTask) : List MemberTask :=
  ms.map (fun t => { t with steps := t.steps - 1 })

def allTerminal (ms : List MemberTask) : Bool := ms.all (fun t => t.steps = 0)

def maxSteps (ms : List MemberTask) : Nat :=
  ms.foldr (fun t m => max t.steps m) 0

/-- The join: returns the outcome mapping once all members are terminal,
`none` if the fuel (number of ticks waited) runs out first. -/
def runFanOut : Nat → List MemberTask → Option (List MOutcome)
  | 0, ms => if allTerminal ms then some (ms.map (fun t => t.outcome)) else none
  | f + 1, ms =>
    if allTerminal ms then some (ms.map (fun t => t.outcome))
    else runFanOut f (advanceAll ms)

theorem maxSteps_zero_iff (ms : List MemberTask) :
    maxSteps ms = 0 ↔ allTerminal ms = true := by
  induction ms with
  | nil => simp [maxSteps, allTerminal]
  | cons t rest ih =>
    simp only [maxSteps, List.foldr_cons, allTerminal, List.all_cons] at *
    constructor
    · intro h
      have h1 : t.steps = 0 := by omega
      have h2 : List.foldr (fun t m => max t.steps m) 0 rest = 0 := by omega
      simp [h1, ih.mp h2]
    · intro h
      obtain ⟨h1, h2⟩ := by simpa using h
      have := ih.mpr (by simpa using h2)
      simp only [h1]
      omega

theorem maxSteps_advanceAll (ms : List MemberTask) :
    maxSteps (advanceAll ms) = maxSteps ms - 1 := by
  induction ms with
  | nil => simp [maxSteps, advanceAll]
  | cons t rest ih =>
    simp only [maxSteps, advanceAll, List.map_cons, List.foldr_cons] at *
    omega

theorem advanceAll_outcomes (ms : List MemberTask) :
    (advanceAll ms).map (fun t => t.outcome) = ms.map (fun t => t.outcome) := by
  simp [advanceAll]

theorem runFanOut_of_fuel (fuel : Nat) :
    ∀ ms, maxSteps ms ≤ fuel →
      runFanOut fuel ms = some (ms.map (fun t => t.outcome)) := by
  induction fuel with
  | zero =>
    intro ms h
    have := (maxSteps_zero_iff ms).mp (Nat.le_zero.mp h)
    simp [runFanOut, this]
  | succ f ih =>
    intro ms h
    cases ht : allTerminal ms with
    | true => simp [runFanOut, ht]
    | false =>
      have hpos : 0 < maxSteps ms := by
        rcases Nat.eq_zero_or_pos (maxSteps ms) with h0 | h0
        · rw [(maxSteps_zero_iff ms).mp h0] at ht; simp at ht
        · exact h0
      simp only [runFanOut, ht, Bool.false_eq_true, if_false]
      rw [ih (advanceAll ms) (by rw [maxSteps_advanceAll]; omega)]
      rw [advanceAll_outcomes]

theorem runFanOut_some_iff (fuel : Nat) :
    ∀ ms r, runFanOut fuel ms = some r →
      maxSteps ms ≤ fuel ∧ r = ms.map (fun t => t.outcome) := by
  induction fuel with
  | zero =>
    intro ms r h
    simp only [runFanOut] at h
    cases ht : allTerminal ms with
    | false => rw [ht] at h; simp at h
    | true =>
      rw [ht] at h
      simp only [if_true] at h
      simp only [Option.some_inj] at h
      exact ⟨by rw [(maxSteps_zero_iff ms).mpr ht], h.symm⟩
  | succ f ih =>
    intro ms r h
    simp only [runFanOut] at h
    cases ht : allTerminal ms with
    | true =>
      rw [ht] at h
      simp only [if_true] at h
      simp only [Option.some_inj] at h
      refine ⟨?_, h.symm⟩
      rw [(maxSteps_zero_iff ms).mpr ht]
      omega
    | false =>
      rw [ht] at h
      simp only [Bool.false_eq_true, if_false] at h
      obtain ⟨h1, h2⟩ := ih (advanceAll ms) r h
      rw [maxSteps_advanceAll] at h1
      refine ⟨by omega, ?_⟩
      rw [h2, advanceAll_outcomes]

/-! ## Claims -/

/-- C2: for every raw PCM payload (and any sample rate the `wave` module
accepts), `_wrap_pcm_in_wav` produces a byte buffer whose length is the fixed
44-byte header size plus exactly the payload length, and whose suffix from
offset 44 is the input payload verbatim - no resampling, transcoding, or
padding. -/
theorem C2_wav_container_framing (pcm : List Nat) (sr : Nat)
    (h1 : 0 < sr) (h2 : sr < 4294967296) :
    (wrap_pcm_in_wav pcm sr 1 2).length = 44 + pcm.length ∧
    (wrap_pcm_in_wav pcm sr 1 2).drop 44 = pcm := by
  constructor
  · simp [wrap_pcm_in_wav, wavHeader, le16, le32]
    omega
  · simp [wrap_pcm_in_wav, wavHeader, le16, le32, List.drop_append]

theorem C2_wav_container_framing_witness :
    (0 < 24000 ∧ 24000 < 4294967296) ∧
    (wrap_pcm_in_wav [10, 20, 30] 24000 1 2).length = 44 + 3 ∧
    (wrap_pcm_in_wav [10, 20, 30] 24000 1 2).drop 44 = [10, 20, 30] := by
  refine ⟨by decide, ?_⟩
  have h := C2_wav_container_framing [10, 20, 30] 24000 (by decide) (by decide)
  simpa using h

/-- C3, as stated, is false: the duration computation
`len(payload) / (sample_rate * 2)` gives 2 seconds for a 96000-byte mono
16-bit payload at 24000 Hz, and the `minutes:seconds` formatting renders 2
seconds as "0:02", not "2:00". -/
theorem C3_counterexample :
    durationFmt 96000 24000 = "0:02" ∧ durationFmt 96000 24000 ≠ "2:00" := by
  decide

/-- C3 (amended): the duration computation
`duration_seconds = len(payload) / (sample_rate * 2)`, formatted as
minutes:seconds with seconds zero-padded to two digits, yields exactly "0:02"
for a 96000-byte mono 16-bit payload at 24000 Hz (a 5760000-byte payload,
i.e. 120 seconds, is the one that yields "2:00"). -/
theorem C3_duration_formatting :
    durationFmt 96000 24000 = "0:02" ∧ durationFmt 5760000 24000 = "2:00" := by
  decide

/-- C8: speech configuration and instruction template are pure functions of
the deployment-mode flag: in Vertex AI mode a single-narrator configuration
with the fixed voice "Kore" and the plain-narrative template, otherwise a
dual-speaker configuration mapping "Host A" and "Host B" to the distinct
fixed voices "Kore" and "Puck" and the dialogue template; for every flag
value the two selections agree. -/
theorem C8_speech_mode_selection :
    buildSpeechConfig true = .singleNarrator "Kore"
  ∧ selectInstruction true = .plainNarrative
  ∧ buildSpeechConfig false = .dualSpeaker [("Host A", "Kore"), ("Host B", "Puck")]
  ∧ selectInstruction false = .dialogueFormatted
  ∧ ("Kore" : String) ≠ "Puck"
  ∧ ∀ flag : Bool, configMatchesTemplate (buildSpeechConfig flag) (selectInstruction flag) = true := by
  refine ⟨rfl, rfl, rfl, rfl, by decide, ?_⟩
  intro flag
  cases flag <;> rfl

/-- C5, as stated, is false: when the retry executor exhausts its attempts the
resulting failure does NOT propagate out of `generate_audio_overview` as an
uncaught exception - the outer `except Exception` handler (lines 255-260)
converts it into a structured result value with status "error".  Concretely,
feeding the exhaustion outcome `RetryError(ServerError("overloaded"))` into
the stage yields the structured error result. -/
theorem C5_counterexample :
    (generate_audio_overview
        (.error (.retryError (.serverError "overloaded")))
        (.ok 0)).result.status = "error"
  ∧ (generate_audio_overview
        (.error (.retryError (.serverError "overloaded")))
        (.ok 0)).result.error_message
      = some "Failed to generate audio overview: RetryError[<Future>]" := by
  exact ⟨rfl, rfl⟩

/-- C5 (amended): when the retry executor exhausts its 3 attempts, the
`RetryError` wrapping the last transient error propagates uncaught from the
`generate_with_retry()` call site (line 183, which has no local handler), but
it is then caught by the stage-level `except Exception` handler and converted
into a structured result with status "error" and an `error_message`; no
session-state key is written and nothing escapes `generate_audio_overview`. -/
theorem C5_exhaustion_becomes_structured_error
    (call : Nat → Except PyExc GenResponse) (save : SaveOutcome) (e1 e2 e3 : PyExc)
    (h1 : call 1 = .error e1) (hs1 : isServerError e1 = true)
    (h2 : call 2 = .error e2) (hs2 : isServerError e2 = true)
    (h3 : call 3 = .error e3) (hs3 : isServerError e3 = true) :
    (generate_with_retry call).1 = .error (.retryError e3)
  ∧ (generate_audio_overview (generate_with_retry call).1 save).result.status = "error"
  ∧ (generate_audio_overview (generate_with_retry call).1 save).result.error_message
      = some ("Failed to generate audio overview: " ++ pyStr (PyExc.retryError e3))
  ∧ (generate_audio_overview (generate_with_retry call).1 save).stateWrites = [] := by
  have hr := retry_exhausted call e1 e2 e3 h1 hs1 h2 hs2 h3 hs3
  rw [hr]
  exact ⟨rfl, rfl, rfl, rfl⟩

def c5AllFail : Nat → Except PyExc GenResponse :=
  fun _ => .error (.serverError "overloaded")

theorem C5_exhaustion_becomes_structured_error_witness :
    (generate_with_retry c5AllFail).1
      = .error (.retryError (.serverError "overloaded"))
  ∧ (generate_audio_overview (generate_with_retry c5AllFail).1 (.ok 0)).result.status = "error"
  ∧ (generate_audio_overview (generate_with_retry c5AllFail).1 (.ok 0)).result.error_message
      = some ("Failed to generate audio overview: "
          ++ pyStr (PyExc.retryError (.serverError "overloaded")))
  ∧ (generate_audio_overview (generate_with_retry c5AllFail).1 (.ok 0)).stateWrites = [] :=
  C5_exhaustion_becomes_structured_error c5AllFail (.ok 0) _ _ _ rfl rfl rfl rfl rfl rfl

/-- C7: for every synthesis response that contains no audio part (no
candidates, or no part of the first candidate carrying inline data),
`generate_audio_overview` returns the structured result with status "error"
and an `error_message` string, regardless of what the artifact store would
do; it performs no state writes and raises nothing. -/
theorem C7_no_audio_structured_error (resp : GenResponse) (save : SaveOutcome)
    (h : ∀ cand rest, resp.candidates = cand :: rest → findInlineData cand.parts = none) :
    (generate_audio_overview (.ok resp) save).result.status = "error"
  ∧ (generate_audio_overview (.ok resp) save).result.error_message
      = some "No audio was generated in the response. The model may have encountered an issue."
  ∧ (generate_audio_overview (.ok resp) save).stateWrites = [] := by
  cases hc : resp.candidates with
  | nil =>
    simp [generate_audio_overview, hc, noAudioOutput]
  | cons cand rest =>
    have hf := h cand rest hc
    simp [generate_audio_overview, hc, hf, noAudioOutput]

def c7EmptyParts : GenResponse := ⟨[⟨[⟨none⟩]⟩]⟩

theorem C7_no_audio_structured_error_witness :
    (generate_audio_overview (.ok c7EmptyParts) (.ok 0)).result.status = "error"
  ∧ (generate_audio_overview (.ok c7EmptyParts) (.ok 0)).result.error_message
      = some "No audio was generated in the response. The model may have encountered an issue."
  ∧ (generate_audio_overview (.ok c7EmptyParts) (.ok 0)).stateWrites = [] := by
  refine C7_no_audio_structured_error c7EmptyParts (.ok 0) ?_
  intro cand rest hc
  simp only [c7EmptyParts] at hc
  cases hc
  rfl

def c4AllFail : Nat → Except PyExc Nat :=
  fun _ => .error (.serverError "overloaded")

/-- C4, as stated, is false in its exhaustion clause: after 3 transient
failures what propagates is tenacity's `RetryError` wrapping the last
transient error (the decorator leaves `reraise=False`), not the last
transient `ServerError` itself.  Concretely, for a call that raises
`ServerError("overloaded")` on every attempt, the executor's outcome is
`RetryError(ServerError("overloaded"))` and differs from
`ServerError("overloaded")`. -/
theorem C4_counterexample :
    (generate_with_retry c4AllFail).1
      = .error (.retryError (.serverError "overloaded"))
  ∧ (generate_with_retry c4AllFail).1
      ≠ .error (.serverError "overloaded") := by
  have h1 : (generate_with_retry c4AllFail).1
      = .error (.retryError (.serverError "overloaded")) := rfl
  refine ⟨h1, ?_⟩
  rw [h1]
  simp

/-- C4 (amended): for the retry executor (max 3 attempts, transient class =
ServerError): if the wrapped call raises the transient error on attempts 1
and 2 and succeeds on attempt 3, exactly 3 attempts occur and the executor
returns the success value; if the wrapped call raises a non-transient error,
exactly 1 attempt occurs and that error propagates unchanged; after 3
transient failures a `RetryError` wrapping the last transient error
propagates; and the sleep before retry attempt k is
`min(initial_delay * multiplier^(k-1), 30)` with initial delay 2 and
multiplier 2 (sleeps 2 and 4 for the two retries). -/
theorem C4_retry_policy :
    (∀ (A : Type) (call : Nat → Except PyExc A) (e1 e2 : PyExc) (a : A),
      call 1 = .error e1 → isServerError e1 = true →
      call 2 = .error e2 → isServerError e2 = true →
      call 3 = .ok a →
      generate_with_retry call = (.ok a, 3, [2, 4]))
  ∧ (∀ (A : Type) (call : Nat → Except PyExc A) (e : PyExc),
      call 1 = .error e → isServerError e = false →
      generate_with_retry call = (.error e, 1, []))
  ∧ (∀ (A : Type) (call : Nat → Except PyExc A) (e1 e2 e3 : PyExc),
      call 1 = .error e1 → isServerError e1 = true →
      call 2 = .error e2 → isServerError e2 = true →
      call 3 = .error e3 → isServerError e3 = true →
      generate_with_retry call = (.error (.retryError e3), 3, [2, 4]))
  ∧ (∀ k : Nat, waitExponential 2 2 2 30 k = min (2 * 2 ^ (k - 1)) 30) := by
  refine ⟨?_, ?_, ?_, waitExponential_formula⟩
  · intro A call e1 e2 a h1 hs1 h2 hs2 h3
    exact retry_two_failures_then_ok call e1 e2 a h1 hs1 h2 hs2 h3
  · intro A call e h1 hs
    exact retry_non_transient call e h1 hs
  · intro A call e1 e2 e3 h1 hs1 h2 hs2 h3 hs3
    exact retry_exhausted call e1 e2 e3 h1 hs1 h2 hs2 h3 hs3

def c4Ok3 : Nat → Except PyExc Nat :=
  fun k => if k = 3 then .ok 7 else .error (.serverError "unavailable")

def c4NonTransient : Nat → Except PyExc Nat :=
  fun _ => .error (.valueError "bad request")

theorem C4_retry_policy_witness :
    generate_with_retry c4Ok3 = (.ok 7, 3, [2, 4])
  ∧ generate_with_retry c4NonTransient = (.error (.valueError "bad request"), 1, [])
  ∧ waitExponential 2 2 2 30 1 = min (2 * 2 ^ 0) 30 := by
  refine ⟨?_, ?_, C4_retry_policy.2.2.2 1⟩
  · exact C4_retry_policy.1 Nat c4Ok3 (.serverError "unavailable")
      (.serverError "unavailable") 7 rfl rfl rfl rfl rfl
  · exact C4_retry_policy.2.1 Nat c4NonTransient (.valueError "bad request") rfl rfl

/-- C6: for every execution in which audio is successfully synthesized and
encoded (a response arrives, its first candidate carries an inline audio
part, and the parsed sample rate is accepted by the encoder) but publishing
to the artifact store raises, `generate_audio_overview` does not fail: it
returns status "success" with `artifact_saved = false`, the base64-encoded
WAV container included inline in `audio_data`, and the save error recorded -
and it writes no session-state keys. -/
theorem C6_save_failure_inline_fallback (cand : Candidate) (rest : List Candidate)
    (d : InlineData) (msg : String)
    (hfind : findInlineData cand.parts = some d)
    (hrate : 0 < parse_sample_rate_from_mime (effectiveMime d) ∧
      parse_sample_rate_from_mime (effectiveMime d) < 4294967296) :
    (generate_audio_overview (.ok ⟨cand :: rest⟩) (.fail msg)).result.status = "success"
  ∧ (generate_audio_overview (.ok ⟨cand :: rest⟩) (.fail msg)).result.artifact_saved = some false
  ∧ (generate_audio_overview (.ok ⟨cand :: rest⟩) (.fail msg)).result.audio_data
      = some (base64Str (wrap_pcm_in_wav d.data
          (parse_sample_rate_from_mime (effectiveMime d)).toNat 1 2))
  ∧ (generate_audio_overview (.ok ⟨cand :: rest⟩) (.fail msg)).result.save_error = some msg
  ∧ (generate_audio_overview (.ok ⟨cand :: rest⟩) (.fail msg)).stateWrites = [] := by
  have h1 : generate_audio_overview (.ok ⟨cand :: rest⟩) (.fail msg)
      = fallbackOutput
          (wrap_pcm_in_wav d.data (parse_sample_rate_from_mime (effectiveMime d)).toNat 1 2)
          (durationFmt d.data.length (parse_sample_rate_from_mime (effectiveMime d)).toNat)
          msg := by
    simp only [generate_audio_overview, hfind]
    rw [if_pos hrate]
  rw [h1]
  exact ⟨rfl, rfl, rfl, rfl, rfl⟩

def c6Inline : InlineData := ⟨[1, 2, 3], some "audio/L16;codec=pcm;rate=24000"⟩

def c6Candidate : Candidate := ⟨[⟨some c6Inline⟩]⟩

theorem C6_save_failure_inline_fallback_witness :
    (generate_audio_overview (.ok ⟨[c6Candidate]⟩) (.fail "artifact store down")).result.status
      = "success"
  ∧ (generate_audio_overview (.ok ⟨[c6Candidate]⟩) (.fail "artifact store down")).result.artifact_saved
      = some false
  ∧ (generate_audio_overview (.ok ⟨[c6Candidate]⟩) (.fail "artifact store down")).result.audio_data
      = some (base64Str (wrap_pcm_in_wav c6Inline.data
          (parse_sample_rate_from_mime (effectiveMime c6Inline)).toNat 1 2))
  ∧ (generate_audio_overview (.ok ⟨[c6Candidate]⟩) (.fail "artifact store down")).result.save_error
      = some "artifact store down"
  ∧ (generate_audio_overview (.ok ⟨[c6Candidate]⟩) (.fail "artifact store down")).stateWrites = [] :=
  C6_save_failure_inline_fallback c6Candidate [] c6Inline "artifact store down"
    rfl (by decide)

/-- C9: for the three-member parallel fan-out (modelled from the spec, see
the fan-out section), the join returns exactly when all three members have
reached a terminal state, yielding each member's own outcome unchanged (so a
failing member never cancels the succeeding members), and when one member
fails while the other two succeed the join holds exactly one failure entry
and two success entries; the join is total (fuel `maxSteps` always
suffices), so it never blocks indefinitely. -/
theorem C9_parallel_fanout_join (a b c : MemberTask) :
    runFanOut (maxSteps [a, b, c]) [a, b, c]
      = some [a.outcome, b.outcome, c.outcome]
  ∧ (∀ fuel r, runFanOut fuel [a, b, c] = some r →
      maxSteps [a, b, c] ≤ fuel ∧ r = [a.outcome, b.outcome, c.outcome])
  ∧ (isFailureB a.outcome = true → isFailureB b.outcome = false →
      isFailureB c.outcome = false →
      ([a.outcome, b.outcome, c.outcome].filter isFailureB).length = 1 ∧
      ([a.outcome, b.outcome, c.outcome].filter (fun o => !isFailureB o)).length = 2) := by
  refine ⟨?_, ?_, ?_⟩
  · have h := runFanOut_of_fuel (maxSteps [a, b, c]) [a, b, c] le_rfl
    simpa using h
  · intro fuel r h
    have h2 := runFanOut_some_iff fuel [a, b, c] r h
    simpa using h2
  · intro h1 h2 h3
    simp [List.filter, h1, h2, h3]

theorem C9_parallel_fanout_join_witness :
    runFanOut (maxSteps [⟨2, .failure "infographic error"⟩, ⟨1, .success "report"⟩,
        ⟨3, .success "audio"⟩])
      [⟨2, .failure "infographic error"⟩, ⟨1, .success "report"⟩, ⟨3, .success "audio"⟩]
      = some [.failure "infographic error", .success "report", .success "audio"]
  ∧ ([MOutcome.failure "infographic error", .success "report", .success "audio"].filter
      isFailureB).length = 1
  ∧ ([MOutcome.failure "infographic error", .success "report", .success "audio"].filter
      (fun o => !isFailureB o)).length = 2 := by
  have h := C9_parallel_fanout_join ⟨2, .failure "infographic error"⟩
    ⟨1, .success "report"⟩ ⟨3, .success "audio"⟩
  exact ⟨h.1, (h.2.2 rfl rfl rfl).1, (h.2.2 rfl rfl rfl).2⟩

/-- C10: the session-state keys `audio_overview_base64` and
`audio_overview_duration` are written exactly when the successful-encode path
is reached and the artifact-store save succeeds; on any save failure
`generate_audio_overview` performs no state write at all and (when the
encode path was reached) returns the inline fallback result with status
"success" and `artifact_saved = false`. -/
theorem C10_state_writes_iff_save (synth : Except PyExc GenResponse) (save : SaveOutcome) :
    (("audio_overview_base64" ∈ (generate_audio_overview synth save).stateWrites.map Prod.fst ∨
      "audio_overview_duration" ∈ (generate_audio_overview synth save).stateWrites.map Prod.fst)
      ↔ (reachesEncode synth = true ∧ ∃ v, save = SaveOutcome.ok v))
  ∧ (∀ msg, save = SaveOutcome.fail msg →
      (generate_audio_overview synth save).stateWrites = [])
  ∧ (∀ msg, save = SaveOutcome.fail msg → reachesEncode synth = true →
      (generate_audio_overview synth save).result.status = "success" ∧
      (generate_audio_overview synth save).result.artifact_saved = some false) := by
  cases synth with
  | error e =>
    refine ⟨?_, ?_, ?_⟩
    · simp [generate_audio_overview, exceptionOutput, reachesEncode]
    · intro msg _
      rfl
    · intro msg _ hre
      simp [reachesEncode] at hre
  | ok resp =>
    cases hc : resp.candidates with
    | nil =>
      refine ⟨?_, ?_, ?_⟩
      · simp [generate_audio_overview, hc, noAudioOutput, reachesEncode]
      · intro msg _
        simp [generate_audio_overview, hc, noAudioOutput]
      · intro msg _ hre
        simp [reachesEncode, hc] at hre
    | cons cand rest =>
      cases hf : findInlineData cand.parts with
      | none =>
        refine ⟨?_, ?_, ?_⟩
        · simp [generate_audio_overview, hc, hf, noAudioOutput, reachesEncode]
        · intro msg _
          simp [generate_audio_overview, hc, hf, noAudioOutput]
        · intro msg _ hre
          simp [reachesEncode, hc, hf] at hre
      | some d =>
        by_cases hr : 0 < parse_sample_rate_from_mime (effectiveMime d) ∧
            parse_sample_rate_from_mime (effectiveMime d) < 4294967296
        · cases save with
          | ok v =>
            refine ⟨?_, ?_, ?_⟩
            · simp [generate_audio_overview, hc, hf, hr, savedOutput, reachesEncode]
            · intro msg he
              cases he
            · intro msg he
              cases he
          | fail msg0 =>
            refine ⟨?_, ?_, ?_⟩
            · simp [generate_audio_overview, hc, hf, hr, fallbackOutput]
            · intro msg _
              simp [generate_audio_overview, hc, hf, hr, fallbackOutput]
            · intro msg _ _
              simp [generate_audio_overview, hc, hf, hr, fallbackOutput]
        · refine ⟨?_, ?_, ?_⟩
          · simp [generate_audio_overview, hc, hf, hr, exceptionOutput, reachesEncode]
          · intro msg _
            simp [generate_audio_overview, hc, hf, hr, exceptionOutput]
          · intro msg _ hre
            simp [reachesEncode, hc, hf, hr] at hre

def c10Resp : GenResponse :=
  ⟨[⟨[⟨some ⟨[4, 5, 6], some "audio/L16;codec=pcm;rate=24000"⟩⟩]⟩]⟩

theorem C10_state_writes_iff_save_witness :
    (generate_audio_overview (.ok c10Resp) (.fail "store down")).stateWrites = []
  ∧ (generate_audio_overview (.ok c10Resp) (.fail "store down")).result.status = "success"
  ∧ (generate_audio_overview (.ok c10Resp) (.fail "store down")).result.artifact_saved = some false
  ∧ ("audio_overview_base64"
      ∈ (generate_audio_overview (.ok c10Resp) (.ok 1)).stateWrites.map Prod.fst ∨
     "audio_overview_duration"
      ∈ (generate_audio_overview (.ok c10Resp) (.ok 1)).stateWrites.map Prod.fst) := by
  have hfail := C10_state_writes_iff_save (.ok c10Resp) (.fail "store down")
  have hok := C10_state_writes_iff_save (.ok c10Resp) (.ok 1)
  refine ⟨hfail.2.1 "store down" rfl, (hfail.2.2 "store down" rfl (by decide)).1,
    (hfail.2.2 "store down" rfl (by decide)).2, ?_⟩
  exact hok.1.mpr ⟨by decide, ⟨1, rfl⟩⟩

/-- The separator string `"rate="` as a character list. -/
def rateKey : List Char := 'r' :: ateCT

/-- C1: for every MIME string whose first occurrence of `rate=` is followed by
a non-empty decimal digit string `d` (terminated by `;` or by the end of the
string), the sample-rate parser returns the value of `d`, and the produced
WAV container declares exactly the sample rate it is built with; for every
MIME string in which `rate=` does not occur, and for every MIME string in
which the value following `rate=` is not an integer, the parser returns
24000. -/
theorem C1_sample_rate_parsing :
    rateKey = "rate=".data
  ∧ (∀ p d s : List Char, containsSeq 'r' ateCT p = false → d ≠ [] →
      (∀ c ∈ d, isDig c = true) →
      parse_sample_rate_from_mime (String.mk (p ++ rateKey ++ (d ++ ';' :: s)))
        = (digitsToNat d : Int))
  ∧ (∀ p d : List Char, containsSeq 'r' ateCT p = false → d ≠ [] →
      (∀ c ∈ d, isDig c = true) →
      parse_sample_rate_from_mime (String.mk (p ++ rateKey ++ d))
        = (digitsToNat d : Int))
  ∧ (∀ m : String, containsSeq 'r' ateCT m.data = false →
      parse_sample_rate_from_mime m = 24000)
  ∧ (∀ p v s : List Char, containsSeq 'r' ateCT p = false →
      (∀ c ∈ v, (c == 'r') = false ∧ (c == ';') = false) →
      pyIntList v = none →
      parse_sample_rate_from_mime (String.mk (p ++ rateKey ++ (v ++ ';' :: s))) = 24000)
  ∧ (∀ (pcm : List Nat) (n : Nat), n < 4294967296 →
      declaredSampleRate (wrap_pcm_in_wav pcm n 1 2) = n) := by
  refine ⟨by decide, ?_, ?_, ?_, ?_, ?_⟩
  · intro p d s hp hd hdig
    exact parseRateCore_digits_semi p d s hp hd hdig
  · intro p d hp hd hdig
    exact parseRateCore_digits_end p d hp hd hdig
  · intro m hm
    exact parseRateCore_no_rate m.data hm
  · intro p v s hp hv hint
    exact parseRateCore_malformed p v s hp hv hint
  · intro pcm n hn
    simp [declaredSampleRate, wrap_pcm_in_wav, wavHeader, le16, le32, List.getD_append]
    omega

theorem C1_sample_rate_parsing_witness :
    parse_sample_rate_from_mime "audio/L16;codec=pcm;rate=44100;x" = 44100
  ∧ parse_sample_rate_from_mime "audio/L16;codec=pcm;rate=44100" = 44100
  ∧ parse_sample_rate_from_mime "audio/L16;codec=pcm" = 24000
  ∧ parse_sample_rate_from_mime "audio/L16;codec=pcm;rate=4o4;x" = 24000
  ∧ declaredSampleRate (wrap_pcm_in_wav [9, 9] 44100 1 2) = 44100 := by
  refine ⟨?_, ?_, ?_, ?_, C1_sample_rate_parsing.2.2.2.2.2 [9, 9] 44100 (by decide)⟩
  · have h := C1_sample_rate_parsing.2.1 "audio/L16;codec=pcm;".data "44100".data "x".data
      (by decide) (by decide) (by decide)
    rw [show String.mk ("audio/L16;codec=pcm;".data ++ rateKey ++ ("44100".data ++ ';' :: "x".data))
        = "audio/L16;codec=pcm;rate=44100;x" from by decide] at h
    rw [show (digitsToNat "44100".data : Int) = 44100 from by decide] at h
    exact h
  · have h := C1_sample_rate_parsing.2.2.1 "audio/L16;codec=pcm;".data "44100".data
      (by decide) (by decide) (by decide)
    rw [show String.mk ("audio/L16;codec=pcm;".data ++ rateKey ++ "44100".data)
        = "audio/L16;codec=pcm;rate=44100" from by decide] at h
    rw [show (digitsToNat "44100".data : Int) = 44100 from by decide] at h
    exact h
  · exact C1_sample_rate_parsing.2.2.2.1 "audio/L16;codec=pcm" (by decide)
  · have h := C1_sample_rate_parsing.2.2.2.2.1 "audio/L16;codec=pcm;".data "4o4".data "x".data
      (by decide) (by decide) (by decide)
    rw [show String.mk ("audio/L16;codec=pcm;".data ++ rateKey ++ ("4o4".data ++ ';' :: "x".data))
        = "audio/L16;codec=pcm;rate=4o4;x" from by decide] at h
    exact h
